import Mathlib

/-!
Shallow embedding of the `txnHeartbeater` transaction-heartbeat interceptor
(`kv` package): the synchronous `SendLocked` interception path with its
begin-transaction marker injection, the heartbeat attempt `heartbeat`, the
asynchronous abort cleanup `abortTxnAsyncLocked`, the heartbeat-loop step,
and the small lifecycle hooks (`epochBumpedLocked`, `closeLocked`).

State mutation in the Go source happens under a shared mutex; here it is
explicit state passing on `HState`.  The wrapped sender is a function
parameter; the single gatekeeper round trip of a heartbeat attempt is
passed in as its outcome.  Asynchronous effects (the abort task, the loop
start) are recorded in the result structures instead of being spawned.
-/

namespace TxnHeartbeat

/-- Transaction status of the mirrored transaction record. -/
inductive TxnStatus
  | pending
  | committed
  | aborted
  deriving DecidableEq, Repr

/-- The coordinator-side mirror of the transaction record (`roachpb.Transaction`
fields used by the heartbeater): status, anchor key (`none` models a
zero-length key), the `Writing` flag and the epoch. Keys are abstracted as
naturals. -/
structure TxnRecord where
  status : TxnStatus
  key : Option Nat
  writing : Bool
  epoch : Nat
  deriving DecidableEq, Repr

/-- Requests that can appear in a batch, as far as the heartbeater inspects
them: point writes, reads, the begin-transaction marker, end-transaction
(with its `Commit` and `Poison` flags) and the heartbeat request (anchor key
and the clock reading it carries). -/
inductive Request
  | write (key : Nat)
  | read (key : Nat)
  | beginTxn (key : Nat)
  | endTxn (commit : Bool) (poison : Bool)
  | heartbeatTxn (key : Nat) (now : Nat)
  deriving DecidableEq, Repr

/-- `args.Header().Key` for the request kinds that carry a key. -/
def Request.headerKey : Request → Nat
  | .write k => k
  | .read k => k
  | .beginTxn k => k
  | .heartbeatTxn k _ => k
  | .endTxn _ _ => 0

/-- Whether a request is an `EndTransactionRequest`. -/
def Request.isEndTxn : Request → Bool
  | .endTxn _ _ => true
  | _ => false

/-- Modelled from the spec: `roachpb.IsTransactionWrite` is not part of the
excerpted sources.  The spec describes the scan as finding "the first
request that performs a transactional write", and its end-to-end scenario
treats a commit-only end-transaction batch as containing no write, so only
point writes qualify here. -/
def isTransactionWrite : Request → Bool
  | .write _ => true
  | _ => false

/-- Error details distinguished by the heartbeater (`roachpb.Error` payloads
and the sentinel errors it creates). `txnStatusErr true` is a
`TransactionStatusError` with `REASON_TXN_NOT_FOUND`. -/
inductive ErrDetail
  | nonTerminalEndTxn
  | schedulingFailed
  | txnAborted
  | txnStatusErr (reasonTxnNotFound : Bool)
  | heartbeatFailedFatally
  | heartbeaterClosed
  | nodeQuiescing
  | other (code : Nat)
  deriving DecidableEq, Repr

/-- A `roachpb.Error`: its detail, the optional request index
(`pErr.Index`) and the transaction snapshot it may carry (`pErr.GetTxn()`). -/
structure PError where
  detail : ErrDetail
  index : Option Nat
  errTxn : Option TxnRecord
  deriving DecidableEq, Repr

/-- An error with just a detail, as built by `roachpb.NewError(f)`. -/
def mkPe (d : ErrDetail) : PError := { detail := d, index := none, errTxn := none }

/-- A `roachpb.BatchRequest`: the request list and the batch's own copy of
the transaction proto (`ba.Txn`). -/
structure BatchRequest where
  requests : List Request
  txn : TxnRecord
  deriving DecidableEq, Repr

/-- A `roachpb.BatchResponse`: one opaque response slot per request. -/
structure BatchResponse where
  responses : List Nat
  deriving DecidableEq, Repr

/-- The mutex-protected heartbeater state (`h.mu`): the transaction record
mirror, the loop-active marker (`txnEnd = true` iff the liveness channel is
non-nil), the terminal error and the `needBeginTxn` flag. -/
structure HState where
  txn : TxnRecord
  txnEnd : Bool
  finalErr : Option PError
  needBeginTxn : Bool
  deriving DecidableEq, Repr

/-- Immutable configuration and environment: the `eagerRecord` flag, whether
`cluster.VersionLazyTxnRecord` is active, and whether the stopper is
quiescing (in which case `RunAsyncTask` fails and `ShouldQuiesce` fires). -/
structure HCfg where
  eagerRecord : Bool
  lazyTxnRecordActive : Bool
  quiescing : Bool
  deriving DecidableEq, Repr

/-- The scan of `firstWriteIndex`, carrying the index of the current
element. For each element, in source order: an `EndTransactionRequest` that
is not the last request fails the batch; otherwise the first transactional
write's index is returned. `-1` means no write. -/
def firstWriteIndexFrom (i : Nat) : List Request → Int × Option PError
  | [] => (-1, none)
  | r :: rest =>
    if !rest.isEmpty && r.isEndTxn then
      (-1, some (mkPe .nonTerminalEndTxn))
    else if isTransactionWrite r then
      ((i : Int), none)
    else
      firstWriteIndexFrom (i + 1) rest

/-- `firstWriteIndex` returns the index of the first transactional write in
the batch (`-1` if the batch has no intention to write) and verifies that an
`EndTransactionRequest`, if encountered, is the last request. -/
def firstWriteIndex (ba : BatchRequest) : Int × Option PError :=
  firstWriteIndexFrom 0 ba.requests

/-- Modelled from the spec: `roachpb.BatchRequest.IsSingleEndTransactionRequest`
is not part of the excerpted sources; per the spec it recognises a batch
consisting solely of a single end-transaction request. -/
def isSingleEndTxnRequest (ba : BatchRequest) : Bool :=
  match ba.requests with
  | [.endTxn _ _] => true
  | _ => false

/-- `singleRollback` as computed at the top of `SendLocked`: a single
end-transaction request whose `Commit` flag is false. -/
def singleRollback (ba : BatchRequest) : Bool :=
  match ba.requests with
  | [.endTxn c _] => !c
  | _ => false

/-- Whether `ba.GetArg(roachpb.EndTransaction)` finds a request. -/
def hasEndTxnReq (ba : BatchRequest) : Bool :=
  ba.requests.any Request.isEndTxn

/-- Result of one `SendLocked` call: the response and error returned to the
caller, the post-state, the batch actually handed to the wrapped sender (if
any), whether a begin-transaction marker was injected (`addedBeginTxn`) and
whether the heartbeat loop's async task was started. -/
structure SendResult where
  br : Option BatchResponse
  pErr : Option PError
  state : HState
  forwarded : Option BatchRequest
  injected : Bool
  loopStarted : Bool
  deriving DecidableEq, Repr

/-- The tail of `SendLocked`: forward the batch through the wrapped sender
and, if a begin-transaction marker was inserted at `fwIdx`, strip its
response slot and fix up an indexed error (drop the index when it points at
the marker, decrement it when it points past the marker). -/
def forwardAndStrip (sendW : BatchRequest → Option BatchResponse × Option PError)
    (st : HState) (ba : BatchRequest) (added : Bool) (fwIdx : Nat)
    (loopStarted : Bool) : SendResult :=
  let out := sendW ba
  let br := out.1
  let pErr := out.2
  let br' :=
    if added then br.map (fun b => { responses := b.responses.eraseIdx fwIdx })
    else br
  let pErr' :=
    if added then
      match pErr with
      | some e =>
        match e.index with
        | some idx =>
          if idx = fwIdx then some { e with index := none }
          else if fwIdx < idx then some { e with index := some (idx - 1) }
          else some e
        | none => some e
      | none => none
    else pErr
  { br := br', pErr := pErr', state := st, forwarded := some ba,
    injected := added, loopStarted := loopStarted }

/-- `txnHeartbeater.SendLocked`.  A set `finalErr` rejects everything but a
single rollback; a misplaced end-transaction fails the batch; a first
transactional write while `needBeginTxn` is set clears the flag, marks the
record writing, anchors the key, optionally splices a begin-transaction
marker before the first write, and starts the heartbeat loop when none is
active and the batch holds no end-transaction; then the batch is forwarded
through the wrapped sender and the marker's traces are stripped from the
response. -/
def SendLocked (cfg : HCfg)
    (sendW : BatchRequest → Option BatchResponse × Option PError)
    (st : HState) (ba : BatchRequest) : SendResult :=
  if st.finalErr.isSome && !singleRollback ba then
    { br := none, pErr := st.finalErr, state := st, forwarded := none,
      injected := false, loopStarted := false }
  else
    match firstWriteIndex ba with
    | (_, some e) =>
      { br := none, pErr := some e, state := st, forwarded := none,
        injected := false, loopStarted := false }
    | (fw, none) =>
      let haveTxnWrite := fw != -1
      let haveEndTxn := hasEndTxnReq ba
      if haveTxnWrite && st.needBeginTxn then
        let fwIdx := fw.toNat
        let st1 : HState :=
          { st with needBeginTxn := false, txn := { st.txn with writing := true } }
        let baTxn1 : TxnRecord := { ba.txn with writing := true }
        let anchorKey : Option Nat :=
          if st1.txn.key = none then
            some ((ba.requests.getD fwIdx (.read 0)).headerKey)
          else st1.txn.key
        let st2 : HState := { st1 with txn := { st1.txn with key := anchorKey } }
        let baTxn2 : TxnRecord :=
          if st1.txn.key = none then { baTxn1 with key := anchorKey } else baTxn1
        let addedBeginTxn := cfg.eagerRecord || !cfg.lazyTxnRecordActive
        let reqs :=
          if addedBeginTxn then
            ba.requests.take fwIdx ++ .beginTxn (anchorKey.getD 0) :: ba.requests.drop fwIdx
          else ba.requests
        let ba' : BatchRequest := { requests := reqs, txn := baTxn2 }
        if !st2.txnEnd && !haveEndTxn then
          let st3 := { st2 with txnEnd := true }
          if cfg.quiescing then
            let fe := mkPe .schedulingFailed
            { br := none, pErr := some fe, state := { st3 with finalErr := some fe },
              forwarded := none, injected := addedBeginTxn, loopStarted := false }
          else
            forwardAndStrip sendW st3 ba' addedBeginTxn fwIdx true
        else
          forwardAndStrip sendW st2 ba' addedBeginTxn fwIdx false
      else
        forwardAndStrip sendW st ba false 0 false

/-- Which sender field a request was issued through. -/
inductive SenderPath
  | wrapped
  | gatekeeper
  deriving DecidableEq, Repr

/-- Modelled from the spec: `roachpb.Transaction.Update` is not part of the
excerpted sources.  Per the spec the merge is monotonic — a nil snapshot is
a no-op, a non-PENDING status in the incoming snapshot dominates PENDING, a
missing anchor key is filled in, and counters take the max. -/
def TxnRecord.update (t : TxnRecord) (o : Option TxnRecord) : TxnRecord :=
  match o with
  | none => t
  | some o =>
    { status := if o.status ≠ .pending then o.status else t.status,
      key := if t.key = none then o.key else t.key,
      writing := t.writing || o.writing,
      epoch := max t.epoch o.epoch }

/-- Effects of `txnHeartbeater.abortTxnAsyncLocked`: how many times the
coordinator callback fired, the rollback batch scheduled (with the sender
path it goes through), and whether a fatal invariant violation occurred. -/
structure AbortResult where
  callbacks : Nat
  sent : Option (SenderPath × BatchRequest)
  fatal : Bool
  deriving DecidableEq, Repr

/-- `txnHeartbeater.abortTxnAsyncLocked`: fatal unless the record is
ABORTED; invoke `asyncAbortCallbackLocked`, then schedule an asynchronous
`EndTransaction(Commit=false, Poison=true)` through the wrapped sender.  A
scheduling failure (stopper quiescing) is logged only: the rollback is then
not sent. -/
def abortTxnAsyncLocked (cfg : HCfg) (st : HState) : AbortResult :=
  if st.txn.status ≠ .aborted then
    { callbacks := 0, sent := none, fatal := true }
  else
    let ba : BatchRequest := { requests := [.endTxn false true], txn := st.txn }
    if cfg.quiescing then { callbacks := 1, sent := none, fatal := false }
    else { callbacks := 1, sent := some (.wrapped, ba), fatal := false }

/-- Outcome of the single gatekeeper round trip of a heartbeat attempt:
either a successful response carrying a transaction snapshot, or an error. -/
inductive GkOutcome
  | ok (respTxn : Option TxnRecord)
  | err (e : PError)
  deriving DecidableEq, Repr

/-- Result of one `txnHeartbeater.heartbeat` attempt: whether to keep
heartbeating, the post-state, the heartbeat batch sent through the
gatekeeper (if the attempt got that far), the abort-cleanup effects, and
whether a fatal invariant violation occurred. -/
structure HbResult where
  keepGoing : Bool
  state : HState
  hbSent : Option (SenderPath × BatchRequest)
  abortCallbacks : Nat
  abortSent : Option (SenderPath × BatchRequest)
  fatal : Bool
  deriving DecidableEq, Repr

/-- Shared tail of `heartbeat` (after the error-detail special cases):
merge the returned snapshot into the local record, and if the merged status
is no longer PENDING, clean up on ABORTED and stop heartbeating. -/
def heartbeatFinish (cfg : HCfg) (st : HState)
    (hb : SenderPath × BatchRequest) (respTxn : Option TxnRecord) : HbResult :=
  let st1 : HState := { st with txn := st.txn.update respTxn }
  if st1.txn.status ≠ .pending then
    if st1.txn.status = .aborted then
      let ar := abortTxnAsyncLocked cfg st1
      { keepGoing := false, state := st1, hbSent := some hb,
        abortCallbacks := ar.callbacks, abortSent := ar.sent, fatal := ar.fatal }
    else
      { keepGoing := false, state := st1, hbSent := some hb,
        abortCallbacks := 0, abortSent := none, fatal := false }
  else
    { keepGoing := true, state := st1, hbSent := some hb,
      abortCallbacks := 0, abortSent := none, fatal := false }

/-- `txnHeartbeater.heartbeat`: one heartbeat attempt.  A non-PENDING local
status stops the loop (fatal if the loop marker is still set); a missing
anchor key is fatal.  Otherwise a heartbeat request carrying the current
clock reading is sent through the gatekeeper; a record-not-found status
error is swallowed, a transaction-aborted error marks the record ABORTED
and triggers the async cleanup, and any other outcome has its transaction
snapshot merged into the local record. -/
def heartbeat (cfg : HCfg) (now : Nat) (st : HState) (gk : GkOutcome) : HbResult :=
  if st.txn.status ≠ .pending then
    if st.txnEnd then
      { keepGoing := false, state := st, hbSent := none,
        abortCallbacks := 0, abortSent := none, fatal := true }
    else
      { keepGoing := false, state := st, hbSent := none,
        abortCallbacks := 0, abortSent := none, fatal := false }
  else if st.txn.key = none then
    { keepGoing := false, state := st, hbSent := none,
      abortCallbacks := 0, abortSent := none, fatal := true }
  else
    let ba : BatchRequest :=
      { requests := [.heartbeatTxn (st.txn.key.getD 0) now], txn := st.txn }
    let hb : SenderPath × BatchRequest := (.gatekeeper, ba)
    match gk with
    | .err e =>
      if e.detail = .txnStatusErr true then
        { keepGoing := true, state := st, hbSent := some hb,
          abortCallbacks := 0, abortSent := none, fatal := false }
      else if e.detail = .txnAborted then
        let st1 : HState := { st with txn := { st.txn with status := .aborted } }
        let ar := abortTxnAsyncLocked cfg st1
        { keepGoing := false, state := st1, hbSent := some hb,
          abortCallbacks := ar.callbacks, abortSent := ar.sent, fatal := ar.fatal }
      else
        heartbeatFinish cfg st hb e.errTxn
    | .ok respTxn => heartbeatFinish cfg st hb respTxn

/-- One wake-up of `txnHeartbeater.heartbeatLoop`: a timer tick (with the
gatekeeper outcome the attempt will see), the liveness channel closing, or
the stopper quiescing. -/
inductive LoopEvent
  | tick (gk : GkOutcome)
  | closerClosed
  | shouldQuiesce
  deriving Repr

/-- Result of one loop wake-up: whether the loop keeps running, the
post-state (the deferred block sets `finalErr` and clears the loop marker
on exit), and the effects of the heartbeat attempt if one ran. -/
structure LoopStepResult where
  continues : Bool
  state : HState
  abortCallbacks : Nat
  abortSent : Option (SenderPath × BatchRequest)
  fatal : Bool
  deriving DecidableEq, Repr

/-- Exit path of `heartbeatLoop`: the deferred block stores the loop's
final error and clears the liveness channel. -/
def loopExit (st : HState) (fe : PError) (cbs : Nat)
    (ab : Option (SenderPath × BatchRequest)) (fatal : Bool) : LoopStepResult :=
  { continues := false,
    state := { st with finalErr := some fe, txnEnd := false },
    abortCallbacks := cbs, abortSent := ab, fatal := fatal }

/-- One iteration of the `select` in `txnHeartbeater.heartbeatLoop`: on a
tick, run a heartbeat attempt and exit with "heartbeat failed fatally" if
it says to stop; on the liveness channel closing exit with "already
closed"; on quiescing exit with "node already quiescing". -/
def heartbeatLoopStep (cfg : HCfg) (now : Nat) (st : HState)
    (ev : LoopEvent) : LoopStepResult :=
  match ev with
  | .tick gk =>
    let r := heartbeat cfg now st gk
    if r.keepGoing then
      { continues := true, state := r.state, abortCallbacks := r.abortCallbacks,
        abortSent := r.abortSent, fatal := r.fatal }
    else
      loopExit r.state (mkPe .heartbeatFailedFatally) r.abortCallbacks r.abortSent r.fatal
  | .closerClosed => loopExit st (mkPe .heartbeaterClosed) 0 none false
  | .shouldQuiesce => loopExit st (mkPe .nodeQuiescing) 0 none false

/-- `txnHeartbeater.epochBumpedLocked`: re-arm `needBeginTxn`. -/
def epochBumpedLocked (st : HState) : HState :=
  { st with needBeginTxn := true }

/-- `txnHeartbeater.closeLocked`: close the liveness channel if one exists. -/
def closeLocked (st : HState) : HState :=
  if st.txnEnd = false then st else { st with txnEnd := false }

/-! Concrete fixtures used by the witness theorems. -/

/-- A default configuration: eager record, lazy-record version active,
stopper healthy. -/
def cfg0 : HCfg := { eagerRecord := true, lazyTxnRecordActive := true, quiescing := false }

/-- A wrapped sender producing one response slot per request, no error. -/
def sendEcho : BatchRequest → Option BatchResponse × Option PError :=
  fun ba => (some { responses := ba.requests.map fun _ => 0 }, none)

/-- A pending transaction record anchored at key 1. -/
def txnP : TxnRecord := { status := .pending, key := some 1, writing := true, epoch := 0 }

/-- A terminal error used as a concrete `finalErr`. -/
def feO : PError := mkPe (.other 7)

/-- A state whose `finalErr` is set. -/
def stFE : HState := { txn := txnP, txnEnd := false, finalErr := some feO, needBeginTxn := false }

/-- A healthy pending state with the begin flag still armed. -/
def stP : HState := { txn := txnP, txnEnd := true, finalErr := none, needBeginTxn := true }

/-- A single-rollback batch. -/
def baRB : BatchRequest := { requests := [.endTxn false true], txn := txnP }

/-- A configuration with the lazy-transaction-record optimization active and
`eagerRecord` off: no begin-transaction marker is ever injected. -/
def cfgLazy : HCfg := { eagerRecord := false, lazyTxnRecordActive := true, quiescing := false }

/-- A freshly initialized state: pending record with no anchor key, no
loop, no terminal error, `needBeginTxn` armed. -/
def stW : HState :=
  { txn := { status := .pending, key := none, writing := false, epoch := 0 },
    txnEnd := false, finalErr := none, needBeginTxn := true }

/-- A batch holding a single write. -/
def baW1 : BatchRequest :=
  { requests := [.write 1], txn := { status := .pending, key := none, writing := false, epoch := 0 } }

/-- A state past its first write: `needBeginTxn` already cleared. -/
def stNB : HState := { txn := txnP, txnEnd := true, finalErr := none, needBeginTxn := false }

/-- A configuration whose stopper is quiescing: `RunAsyncTask` fails. -/
def cfgQ : HCfg := { eagerRecord := true, lazyTxnRecordActive := true, quiescing := true }

/-- A batch whose end-transaction request is non-terminal but sits after the
first transactional write. -/
def ba5 : BatchRequest := { requests := [.write 1, .endTxn true false, .read 2], txn := txnP }

/-! Helper lemmas about the batch scan. -/

/-- A successful `firstWriteIndexFrom` scan returns an index at or past the
start counter and within the list. -/
theorem firstWriteIndexFrom_nat_bound :
    ∀ (l : List Request) (i f : Nat),
      firstWriteIndexFrom i l = ((f : Int), none) → i ≤ f ∧ f - i < l.length := by
  intro l
  induction l with
  | nil =>
    intro i f h
    simp only [firstWriteIndexFrom, Prod.mk.injEq] at h
    omega
  | cons r rest ih =>
    intro i f h
    simp only [firstWriteIndexFrom] at h
    split at h
    · simp at h
    · split at h
      · simp only [Prod.mk.injEq] at h
        have hif : i = f := by exact_mod_cast h.1
        simp only [List.length_cons]
        omega
      · have := ih (i + 1) f h
        simp only [List.length_cons]
        omega

/-- The first-write index of a batch is within the request list. -/
theorem firstWriteIndex_lt_length (ba : BatchRequest) (f : Nat)
    (h : firstWriteIndex ba = ((f : Int), none)) : f < ba.requests.length := by
  have := firstWriteIndexFrom_nat_bound ba.requests 0 f h
  omega

/-- Length of splicing one element before position `f`. -/
theorem length_splice (l : List Request) (x : Request) (f : Nat) (hf : f ≤ l.length) :
    (l.take f ++ x :: l.drop f).length = l.length + 1 := by
  simp only [List.length_append, List.length_take, List.length_cons, List.length_drop]
  omega

/-- The scan errors out on an end-transaction request that is non-terminal
and not preceded by any transactional write. -/
theorem firstWriteIndexFrom_nonTerminal_endTxn :
    ∀ (pre : List Request) (i : Nat) (c p : Bool) (post : List Request),
      (∀ r ∈ pre, isTransactionWrite r = false ∧ r.isEndTxn = false) →
      post ≠ [] →
      firstWriteIndexFrom i (pre ++ .endTxn c p :: post) =
        (-1, some (mkPe .nonTerminalEndTxn)) := by
  intro pre
  induction pre with
  | nil =>
    intro i c p post _ hpost
    have : post.isEmpty = false := by
      cases post with
      | nil => exact absurd rfl hpost
      | cons _ _ => rfl
    simp [firstWriteIndexFrom, this, Request.isEndTxn]
  | cons r pre' ih =>
    intro i c p post hpre hpost
    have hr := hpre r (List.mem_cons_self r pre')
    have hrest : ∀ x ∈ pre', isTransactionWrite x = false ∧ x.isEndTxn = false :=
      fun x hx => hpre x (List.mem_cons_of_mem r hx)
    simp only [List.cons_append, firstWriteIndexFrom, hr.1, hr.2, Bool.and_false,
      Bool.false_eq_true, if_false]
    exact ih (i + 1) c p post hrest hpost

/-! Claim theorems. -/

/-- Claim C10: `epochBumpedLocked` always sets `needBeginTxn` to true and leaves
`finalErr`, the loop marker and the transaction record mirror unchanged. -/
theorem epochBumped_resets_only_needBeginTxn (st : HState) :
    (epochBumpedLocked st).needBeginTxn = true ∧
    (epochBumpedLocked st).finalErr = st.finalErr ∧
    (epochBumpedLocked st).txnEnd = st.txnEnd ∧
    (epochBumpedLocked st).txn = st.txn := by
  simp [epochBumpedLocked]

/-- Claim C1: with `finalErr` set, a batch that is solely a single commit=false
end-transaction request is forwarded to the wrapped sender; every other
batch is rejected with `finalErr`, is not forwarded, and leaves the state
untouched. -/
theorem sendLocked_finalErr_admits_only_rollback
    (cfg : HCfg) (sendW : BatchRequest → Option BatchResponse × Option PError)
    (st : HState) (ba : BatchRequest) (fe : PError)
    (hfe : st.finalErr = some fe) :
    (∀ p, ba.requests = [Request.endTxn false p] →
      (SendLocked cfg sendW st ba).forwarded = some ba) ∧
    (singleRollback ba = false →
      (SendLocked cfg sendW st ba).pErr = some fe ∧
      (SendLocked cfg sendW st ba).forwarded = none ∧
      (SendLocked cfg sendW st ba).state = st) := by
  constructor
  · intro p hp
    have hsr : singleRollback ba = true := by simp [singleRollback, hp]
    simp [SendLocked, hfe, hsr, firstWriteIndex, hp, firstWriteIndexFrom,
      isTransactionWrite, Request.isEndTxn, forwardAndStrip]
  · intro hsr
    simp [SendLocked, hfe, hsr]

/-- Witness for C1 at concrete inputs: the rollback is forwarded, a write
batch is rejected with the stored error. -/
theorem sendLocked_finalErr_admits_only_rollback_witness :
    (SendLocked cfg0 sendEcho stFE baRB).forwarded = some baRB ∧
    (SendLocked cfg0 sendEcho stFE { requests := [.write 5], txn := txnP }).pErr = some feO := by
  refine ⟨(sendLocked_finalErr_admits_only_rollback cfg0 sendEcho stFE baRB feO rfl).1 true rfl, ?_⟩
  exact ((sendLocked_finalErr_admits_only_rollback cfg0 sendEcho stFE
    { requests := [.write 5], txn := txnP } feO rfl).2 (by decide)).1

/-- Claim C9: a batch whose only request is a commit=true end-transaction, sent
with `finalErr` unset, gets no begin-transaction marker and is forwarded to
the wrapped sender unchanged. -/
theorem sendLocked_commit_only_batch_unchanged
    (cfg : HCfg) (sendW : BatchRequest → Option BatchResponse × Option PError)
    (st : HState) (p : Bool) (t : TxnRecord)
    (hfe : st.finalErr = none) :
    (SendLocked cfg sendW st { requests := [.endTxn true p], txn := t }).injected = false ∧
    (SendLocked cfg sendW st { requests := [.endTxn true p], txn := t }).forwarded =
      some { requests := [.endTxn true p], txn := t } := by
  simp [SendLocked, hfe, firstWriteIndex, firstWriteIndexFrom,
    isTransactionWrite, Request.isEndTxn, forwardAndStrip]

/-- Witness for C9 at a concrete input. -/
theorem sendLocked_commit_only_batch_unchanged_witness :
    (SendLocked cfg0 sendEcho stP { requests := [.endTxn true false], txn := txnP }).forwarded =
      some { requests := [.endTxn true false], txn := txnP } :=
  (sendLocked_commit_only_batch_unchanged cfg0 sendEcho stP false txnP rfl).2

/-- Claim C6: a heartbeat attempt whose gatekeeper send fails with a
record-not-found transaction-status error keeps heartbeating, leaves the
state (in particular `finalErr`) unchanged, and the loop continues. -/
theorem heartbeat_record_not_found_transient
    (cfg : HCfg) (now : Nat) (st : HState) (k : Nat) (e : PError)
    (hp : st.txn.status = .pending) (hk : st.txn.key = some k)
    (he : e.detail = .txnStatusErr true) :
    (heartbeat cfg now st (.err e)).keepGoing = true ∧
    (heartbeat cfg now st (.err e)).state = st ∧
    (heartbeatLoopStep cfg now st (.tick (.err e))).continues = true ∧
    (heartbeatLoopStep cfg now st (.tick (.err e))).state.finalErr = st.finalErr := by
  simp [heartbeat, heartbeatLoopStep, hp, hk, he]

/-- Witness for C6 at a concrete input. -/
theorem heartbeat_record_not_found_transient_witness :
    (heartbeat cfg0 3 stP (.err (mkPe (.txnStatusErr true)))).keepGoing = true ∧
    (heartbeatLoopStep cfg0 3 stP (.tick (.err (mkPe (.txnStatusErr true))))).continues = true := by
  have h := heartbeat_record_not_found_transient cfg0 3 stP 1
    (mkPe (.txnStatusErr true)) rfl rfl rfl
  exact ⟨h.1, h.2.2.1⟩

/-- Claim C2 counterexample: with the stopper quiescing, a heartbeat attempt
that observes a transaction-aborted error still marks the record ABORTED
and fires the callback, but `RunAsyncTask` fails, the failure is only
logged, and no rollback request is issued through any sender. -/
theorem heartbeat_abort_no_rollback_when_quiescing :
    (heartbeat cfgQ 3 stP (.err (mkPe .txnAborted))).state.txn.status = .aborted ∧
    (heartbeat cfgQ 3 stP (.err (mkPe .txnAborted))).abortCallbacks = 1 ∧
    (heartbeat cfgQ 3 stP (.err (mkPe .txnAborted))).abortSent = none := by
  decide

/-- Claim C2 (amended): provided the async-task scheduler is not shutting
down, a heartbeat attempt that observes the transaction aborted — via a
transaction-aborted error or via a response snapshot whose merged status is
ABORTED — marks the local record ABORTED, stops heartbeating, fires the
coordinator callback exactly once, and schedules a Commit=false,
Poison=true end-transaction through the wrapped sender (when the scheduler
is shutting down, the scheduling failure is only logged and no rollback is
issued). -/
theorem heartbeat_abort_propagates
    (cfg : HCfg) (now : Nat) (st : HState) (k : Nat)
    (hq : cfg.quiescing = false)
    (hp : st.txn.status = .pending) (hk : st.txn.key = some k) :
    (∀ e : PError, e.detail = .txnAborted →
      (heartbeat cfg now st (.err e)).state.txn.status = .aborted ∧
      (heartbeat cfg now st (.err e)).keepGoing = false ∧
      (heartbeat cfg now st (.err e)).abortCallbacks = 1 ∧
      ∃ ba, (heartbeat cfg now st (.err e)).abortSent = some (.wrapped, ba) ∧
        ba.requests = [.endTxn false true]) ∧
    (∀ rt : TxnRecord, rt.status = .aborted →
      (heartbeat cfg now st (.ok (some rt))).state.txn.status = .aborted ∧
      (heartbeat cfg now st (.ok (some rt))).keepGoing = false ∧
      (heartbeat cfg now st (.ok (some rt))).abortCallbacks = 1 ∧
      ∃ ba, (heartbeat cfg now st (.ok (some rt))).abortSent = some (.wrapped, ba) ∧
        ba.requests = [.endTxn false true]) := by
  constructor
  · intro e he
    simp [heartbeat, hp, hk, he, abortTxnAsyncLocked, hq]
  · intro rt hrt
    simp [heartbeat, heartbeatFinish, hp, hk, hrt, TxnRecord.update,
      abortTxnAsyncLocked, hq]

/-- Witness for C2 at concrete inputs, covering both observation paths. -/
theorem heartbeat_abort_propagates_witness :
    (heartbeat cfg0 3 stP (.err (mkPe .txnAborted))).abortCallbacks = 1 ∧
    (heartbeat cfg0 3 stP
      (.ok (some { status := .aborted, key := some 1, writing := true, epoch := 0 }))).keepGoing
      = false := by
  have h := heartbeat_abort_propagates cfg0 3 stP 1 rfl rfl rfl
  exact ⟨(h.1 (mkPe .txnAborted) rfl).2.2.1,
    (h.2 { status := .aborted, key := some 1, writing := true, epoch := 0 } rfl).2.1⟩

/-- Claim C5 counterexample: a batch whose end-transaction request is non-terminal
but sits after the first transactional write is forwarded to the wrapped
sender and does not get the structural error. -/
theorem sendLocked_non_terminal_endTxn_after_write_forwarded :
    (SendLocked cfg0 sendEcho stNB ba5).forwarded = some ba5 ∧
    (SendLocked cfg0 sendEcho stNB ba5).pErr ≠ some (mkPe .nonTerminalEndTxn) := by
  decide

/-- Claim C5 (amended): a batch in which an end-transaction request occurs at a
non-last position and no transactional write precedes it is failed with the
"sent as non-terminal call" structural error and is not forwarded (with
`finalErr` unset so the terminal-error gate does not fire first). -/
theorem sendLocked_non_terminal_endTxn_rejected
    (cfg : HCfg) (sendW : BatchRequest → Option BatchResponse × Option PError)
    (st : HState) (pre post : List Request) (c p : Bool) (t : TxnRecord)
    (hfe : st.finalErr = none)
    (hpre : ∀ r ∈ pre, isTransactionWrite r = false ∧ r.isEndTxn = false)
    (hpost : post ≠ []) :
    (SendLocked cfg sendW st { requests := pre ++ .endTxn c p :: post, txn := t }).pErr
      = some (mkPe .nonTerminalEndTxn) ∧
    (SendLocked cfg sendW st { requests := pre ++ .endTxn c p :: post, txn := t }).forwarded
      = none := by
  have hscan := firstWriteIndexFrom_nonTerminal_endTxn pre 0 c p post hpre hpost
  simp [SendLocked, hfe, firstWriteIndex, hscan]

/-- Witness for the amended C5 at a concrete input. -/
theorem sendLocked_non_terminal_endTxn_rejected_witness :
    (SendLocked cfg0 sendEcho stP
      { requests := [.read 3] ++ .endTxn true false :: [.write 1], txn := txnP }).pErr
      = some (mkPe .nonTerminalEndTxn) :=
  (sendLocked_non_terminal_endTxn_rejected cfg0 sendEcho stP [.read 3] [.write 1]
    true false txnP rfl (by decide) (by decide)).1

/-- Claim C7: a qualifying write (transactional write present, `needBeginTxn` set,
`finalErr` unset) leaves `needBeginTxn` false, and every `SendLocked` call
from a state with `needBeginTxn` false injects no begin-transaction marker. -/
theorem sendLocked_begin_idempotent
    (cfg : HCfg) (sendW : BatchRequest → Option BatchResponse × Option PError) :
    (∀ (st : HState) (ba : BatchRequest) (f : Nat),
      st.finalErr = none → st.needBeginTxn = true →
      firstWriteIndex ba = ((f : Int), none) →
      (SendLocked cfg sendW st ba).state.needBeginTxn = false) ∧
    (∀ (st : HState) (ba : BatchRequest),
      st.needBeginTxn = false →
      (SendLocked cfg sendW st ba).injected = false) := by
  constructor
  · intro st ba f hfe hnb hfw
    have hne : (((f : Int)) != -1) = true := by
      simp only [bne_iff_ne, ne_eq]
      omega
    simp only [SendLocked, hfe, Option.isSome_none, Bool.false_and, Bool.false_eq_true,
      if_false, hfw, hne, hnb, Bool.and_self, if_true]
    split
    · split
      · split <;> simp [forwardAndStrip]
      · simp [forwardAndStrip]
    · split
      · split <;> simp [forwardAndStrip]
      · simp [forwardAndStrip]
  · intro st ba hnb
    simp only [SendLocked]
    split
    · rfl
    · split
      · rfl
      · simp only [hnb, Bool.and_false, Bool.false_eq_true, if_false]
        simp [forwardAndStrip]

/-- Witness for C7 at concrete inputs. -/
theorem sendLocked_begin_idempotent_witness :
    (SendLocked cfg0 sendEcho stW baW1).state.needBeginTxn = false ∧
    (SendLocked cfg0 sendEcho stNB baW1).injected = false := by
  have h := sendLocked_begin_idempotent cfg0 sendEcho
  exact ⟨h.1 stW baW1 0 rfl rfl (by decide), h.2 stNB baW1 rfl⟩

/-- Claim C8: on a qualifying write, the heartbeat loop's async task is started
iff no loop is active and the batch holds no end-transaction request; when
starting fails because the stopper is quiescing, `finalErr` is set to the
scheduling error, the caller gets that error, and the batch is not
forwarded. -/
theorem sendLocked_loop_start_iff
    (cfg : HCfg) (sendW : BatchRequest → Option BatchResponse × Option PError)
    (st : HState) (ba : BatchRequest) (f : Nat)
    (hfe : st.finalErr = none) (hnb : st.needBeginTxn = true)
    (hfw : firstWriteIndex ba = ((f : Int), none)) :
    (cfg.quiescing = false →
      ((SendLocked cfg sendW st ba).loopStarted = true ↔
        st.txnEnd = false ∧ hasEndTxnReq ba = false)) ∧
    (cfg.quiescing = true → st.txnEnd = false → hasEndTxnReq ba = false →
      (SendLocked cfg sendW st ba).state.finalErr = some (mkPe .schedulingFailed) ∧
      (SendLocked cfg sendW st ba).pErr = some (mkPe .schedulingFailed) ∧
      (SendLocked cfg sendW st ba).forwarded = none) := by
  have hne : (((f : Int)) != -1) = true := by
    simp only [bne_iff_ne, ne_eq]
    omega
  constructor
  · intro hq
    rcases Bool.eq_false_or_eq_true st.txnEnd with hte | hte <;>
      rcases Bool.eq_false_or_eq_true (hasEndTxnReq ba) with hhe | hhe <;>
        simp [SendLocked, hfe, hfw, hne, hnb, hte, hhe, hq, forwardAndStrip]
  · intro hq hte hhe
    simp [SendLocked, hfe, hfw, hne, hnb, hte, hhe, hq]

/-- Witness for C8 at concrete inputs: the loop starts on a fresh state, and
a quiescing stopper turns the qualifying write into a rejection. -/
theorem sendLocked_loop_start_iff_witness :
    (SendLocked cfg0 sendEcho stW baW1).loopStarted = true ∧
    (SendLocked { cfg0 with quiescing := true } sendEcho stW baW1).state.finalErr =
      some (mkPe .schedulingFailed) := by
  constructor
  · exact ((sendLocked_loop_start_iff cfg0 sendEcho stW baW1 0 rfl rfl
      (by decide)).1 rfl).mpr ⟨rfl, rfl⟩
  · exact ((sendLocked_loop_start_iff { cfg0 with quiescing := true } sendEcho stW baW1 0
      rfl rfl (by decide)).2 rfl rfl rfl).1

/-- Claim C4: with a begin-transaction marker injected at the first-write position
`f`, an indexed error from the wrapped sender comes back with no index if it
pointed at the marker, with the index decremented if it pointed past the
marker, and unchanged if it pointed before the marker. -/
theorem sendLocked_index_adjustment
    (cfg : HCfg) (sendW : BatchRequest → Option BatchResponse × Option PError)
    (st : HState) (ba : BatchRequest) (f : Nat)
    (br0 : Option BatchResponse) (e : PError) (i : Nat)
    (hfe : st.finalErr = none) (hnb : st.needBeginTxn = true)
    (heager : cfg.eagerRecord = true) (hq : cfg.quiescing = false)
    (hfw : firstWriteIndex ba = ((f : Int), none))
    (hidx : e.index = some i)
    (hsw : ∀ b, sendW b = (br0, some e)) :
    (SendLocked cfg sendW st ba).pErr =
      some (if i = f then { e with index := none }
            else if f < i then { e with index := some (i - 1) }
            else e) := by
  have hne : (((f : Int)) != -1) = true := by
    simp only [bne_iff_ne, ne_eq]
    omega
  simp only [SendLocked, hfe, Option.isSome_none, Bool.false_and, Bool.false_eq_true,
    if_false, hfw, hne, hnb, Bool.and_self, if_true, heager, Bool.true_or, hq]
  split <;> simp [forwardAndStrip, hsw, hidx, apply_ite Option.some]

/-- Witness for C4 at a concrete input (error index past the marker). -/
theorem sendLocked_index_adjustment_witness :
    (SendLocked cfg0 (fun _ => (none, some { feO with index := some 2 })) stP
      { requests := [.read 3, .write 1, .write 2], txn := txnP }).pErr =
      some { feO with index := some 1 } := by
  have h := sendLocked_index_adjustment cfg0
    (fun _ => (none, some { feO with index := some 2 })) stP
    { requests := [.read 3, .write 1, .write 2], txn := txnP } 1 none
    { feO with index := some 2 } 2 rfl rfl rfl rfl (by decide) rfl (fun _ => rfl)
  simpa using h

/-- Claim C3 counterexample: with `eagerRecord` off and the lazy-transaction-record
version active, a single-write batch with `needBeginTxn` set and `finalErr`
unset is forwarded with its original request count — no extra request. -/
theorem sendLocked_single_write_no_marker_when_lazy :
    ¬ ((SendLocked cfgLazy sendEcho stW baW1).forwarded.map
        (fun b => b.requests.length) = some (baW1.requests.length + 1)) := by
  decide

/-- Claim C3 (amended): for a batch containing exactly one transactional write,
with `needBeginTxn` true, `finalErr` unset, and a begin-transaction marker
due (`eagerRecord` set or the lazy-record version inactive), the forwarded
batch is the original with one marker spliced immediately before the first
write — one more request than the original — and the response returned to
the caller has exactly the original number of response slots. -/
theorem sendLocked_single_write_injects_one_marker
    (cfg : HCfg) (sendW : BatchRequest → Option BatchResponse × Option PError)
    (resp : BatchRequest → BatchResponse)
    (st : HState) (ba : BatchRequest) (f : Nat)
    (hfe : st.finalErr = none) (hnb : st.needBeginTxn = true)
    (hadd : cfg.eagerRecord = true ∨ cfg.lazyTxnRecordActive = false)
    (hq : cfg.quiescing = false)
    (hfw : firstWriteIndex ba = ((f : Int), none))
    (_hone : (ba.requests.filter isTransactionWrite).length = 1)
    (hsw : ∀ b, (sendW b).1 = some (resp b))
    (hlen : ∀ b, (resp b).responses.length = b.requests.length) :
    (∃ k, (SendLocked cfg sendW st ba).forwarded.map (fun b => b.requests) =
      some (ba.requests.take f ++ .beginTxn k :: ba.requests.drop f)) ∧
    (SendLocked cfg sendW st ba).forwarded.map (fun b => b.requests.length) =
      some (ba.requests.length + 1) ∧
    (SendLocked cfg sendW st ba).br.map (fun r => r.responses.length) =
      some ba.requests.length := by
  have hne : (((f : Int)) != -1) = true := by
    simp only [bne_iff_ne, ne_eq]
    omega
  have hflt : f < ba.requests.length := firstWriteIndex_lt_length ba f hfw
  have haddB : (cfg.eagerRecord || !cfg.lazyTxnRecordActive) = true := by
    rcases hadd with h | h <;> simp [h]
  have hsl : ∀ x : Request,
      (ba.requests.take f ++ x :: ba.requests.drop f).length = ba.requests.length + 1 :=
    fun x => length_splice ba.requests x f hflt.le
  simp only [SendLocked, hfe, Option.isSome_none, Bool.false_and, Bool.false_eq_true,
    if_false, hfw, hne, hnb, Bool.and_self, if_true, haddB, hq, Int.toNat_natCast]
  split <;>
  · refine ⟨?_, ?_, ?_⟩
    · simp only [forwardAndStrip, Option.map_some']
      exact ⟨_, rfl⟩
    · simp [forwardAndStrip, hsl]
    · simp only [forwardAndStrip, hsw, Option.map_some', if_true]
      simp only [List.length_eraseIdx, hlen, hsl]
      have hlt : f < ba.requests.length + 1 := by omega
      rw [if_pos hlt]
      simp

/-- Witness for the amended C3 at a concrete input. -/
theorem sendLocked_single_write_injects_one_marker_witness :
    (SendLocked cfg0 sendEcho stW baW1).forwarded.map (fun b => b.requests.length) =
      some (baW1.requests.length + 1) ∧
    (SendLocked cfg0 sendEcho stW baW1).br.map (fun r => r.responses.length) =
      some baW1.requests.length := by
  have h := sendLocked_single_write_injects_one_marker cfg0 sendEcho
    (fun ba => { responses := ba.requests.map fun _ => 0 }) stW baW1 0
    rfl rfl (Or.inl rfl) rfl (by decide) (by decide) (fun _ => rfl)
    (fun b => by simp [List.length_map])
  exact ⟨h.2.1, h.2.2⟩

end TxnHeartbeat
